import Mathlib

/-!
Shallow embedding of the code-execution and model-client routines of the
AI-Data-Analyst repository (src/analysis.py), together with theorems about
the behaviour of `run_code` and `ask_llm`.

The executed snippet (Python source handed to `exec`) is modelled as a list
of abstract statements covering the observable effects the executor's
pipeline dispatches on: printing to the current standard-output stream,
creating a figure in the plotting library's global registry, binding a name
in the local variable context, mutating the shared table in place, and
raising a fault.
-/

namespace AIDataAnalyst

/-- A cell value of the in-memory table (pandas DataFrame). -/
inductive Cell where
  | str (s : String)
  | num (n : Int)
deriving DecidableEq, Repr

/-- An in-memory tabular dataset: named columns and an ordered list of rows
(the pandas DataFrame the Data Loader produces). -/
structure Table where
  columns : List String
  rows : List (List Cell)
deriving DecidableEq, Repr

/-- A dynamic value the snippet can bind in the execution context. -/
inductive PyVal where
  | dataframe (t : Table)
  | pyStr (s : String)
  | pyInt (n : Int)
deriving DecidableEq, Repr

/-- The string form of a cell, as Python str() would render it. -/
def Cell.toStr : Cell → String
  | .str s => s
  | .num n => toString n

/-- The string form of a dynamic value (Python str(res) in run_code). -/
def PyVal.toStr : PyVal → String
  | .dataframe t =>
      "DataFrame[" ++ toString t.columns.length ++ " cols x "
        ++ toString t.rows.length ++ " rows]"
  | .pyStr s => s
  | .pyInt n => toString n

/-- In-place update of one cell of a table (models a mutating operation the
snippet performs on the shared df object). Out-of-range indices leave the
table unchanged. -/
def Table.setCell (t : Table) (i j : Nat) (c : Cell) : Table :=
  match t.rows[i]? with
  | none => t
  | some row => { t with rows := t.rows.set i (row.set j c) }

/-- Lookup of a name in the local variable context (`"result" in local_vars`
and `local_vars["result"]` in run_code). -/
def lookupLocal : List (String × PyVal) → String → Option PyVal
  | [], _ => none
  | (y, v) :: rest, x => if y = x then some v else lookupLocal rest x

/-- Binding (or rebinding) a name in the local variable context. -/
def setLocal : List (String × PyVal) → String → PyVal → List (String × PyVal)
  | [], x, v => [(x, v)]
  | (y, w) :: rest, x, v =>
      if y = x then (x, v) :: rest else (y, w) :: setLocal rest x v

/-- Where the process's sys.stdout currently points: the real host stream,
or the in-memory buffer (io.StringIO) run_code installs. -/
inductive StdStream where
  | host
  | memBuffer
deriving DecidableEq, Repr

/-- One abstract statement of the executed snippet. -/
inductive Stmt where
  | printLn (s : String)
  | makeFigure
  | assign (x : String) (v : PyVal)
  | mutateCell (i j : Nat) (c : Cell)
  | raiseExc (msg : String)
deriving DecidableEq, Repr

/-- The mutable state visible to the snippet while `exec` runs: the shared
table referent, the local variable context, the plotting library's global
figure registry (plt.get_fignums()), the contents of the real host stdout,
and the contents of the in-memory buffer. -/
structure ExecSt where
  df : Table
  locals : List (String × PyVal)
  figures : List Nat
  hostOut : String
  bufOut : String
deriving DecidableEq, Repr

/-- Writing text to whatever stream sys.stdout currently points at. -/
def writeOut (stdout : StdStream) (s : ExecSt) (text : String) : ExecSt :=
  match stdout with
  | .host => { s with hostOut := s.hostOut ++ text }
  | .memBuffer => { s with bufOut := s.bufOut ++ text }

/-- Effect of one snippet statement. A raised fault aborts execution,
carrying the fault description and the state at the raise point (side
effects performed before the fault persist). -/
def runStmt (stdout : StdStream) (s : ExecSt) :
    Stmt → Except (String × ExecSt) ExecSt
  | .printLn str => .ok (writeOut stdout s (str ++ "\n"))
  | .makeFigure => .ok { s with figures := s.figures ++ [s.figures.length + 1] }
  | .assign x v => .ok { s with locals := setLocal s.locals x v }
  | .mutateCell i j c => .ok { s with df := s.df.setCell i j c }
  | .raiseExc msg => .error (msg, s)

/-- Execution of a snippet: the embedding of `exec(code, {}, local_vars)`
with sys.stdout pointing at `stdout`. -/
def execSnippet (stdout : StdStream) :
    List Stmt → ExecSt → Except (String × ExecSt) ExecSt
  | [], s => .ok s
  | stmt :: rest, s =>
      match runStmt stdout s stmt with
      | .ok s2 => execSnippet stdout rest s2
      | .error e => .error e

/-- The tagged outcome run_code returns: one of the dicts
{"type": "text"|"dataframe"|"image", ...}. -/
inductive ExecutionResult where
  | text (output : String)
  | dataframe (t : Table)
  | image (path : String)
deriving DecidableEq, Repr

/-- Process-global state around one run_code invocation: current sys.stdout
target, contents of the real host stdout, the plotting library's global
figure registry, and a counter for fresh temporary file names. -/
structure World where
  stdout : StdStream
  hostOut : String
  figures : List Nat
  nextTemp : Nat
deriving DecidableEq, Repr

/-- The temporary .png path tempfile.NamedTemporaryFile hands out. -/
def tempPngPath (n : Nat) : String := "/tmp/tmp" ++ toString n ++ ".png"

/-- Python's truthiness test `output_text.strip()`: the characters str.strip
removes from both ends. -/
def isPySpace (c : Char) : Bool :=
  c = ' ' || c = '\t' || c = '\n' || c = '\r' || c = '\x0b' || c = '\x0c'

/-- Python str.strip(): drop whitespace from both ends. -/
def pyStrip (s : String) : String :=
  String.mk (((s.toList.dropWhile isPySpace).reverse.dropWhile isPySpace).reverse)

/-- What one run_code invocation yields: the ExecutionResult, the shared
table as left after execution (it was passed by reference), and the
process-global state after return. -/
structure RunOutput where
  result : ExecutionResult
  table : Table
  world : World
deriving DecidableEq, Repr

/-- The execution state at the moment `exec` starts inside run_code:
`local_vars = {"df": df, "pd": pd, "np": np, "plt": plt}` (the library
module bindings carry no data and are omitted), the global figure registry
and host stdout as found, and a fresh empty in-memory buffer. -/
def initExecSt (df : Table) (w : World) : ExecSt :=
  { df := df
    locals := [("df", PyVal.dataframe df)]
    figures := w.figures
    hostOut := w.hostOut
    bufOut := "" }

/-- The result-dispatch of run_code after a non-faulting execution, in the
source's order (src/analysis.py lines 140-158): the figure registry first
(`if plt.get_fignums():`), then the `result` binding (a tabular result when
it is a DataFrame, else its string form), then the captured printed output
when non-empty after stripping (`if output_text.strip():`), else the fixed
literal success message. -/
def dispatchOk (s : ExecSt) (w : World) : ExecutionResult :=
  if s.figures ≠ [] then
    .image (tempPngPath w.nextTemp)
  else
    match lookupLocal s.locals "result" with
    | some res =>
        match res with
        | .dataframe t => .dataframe t
        | _ => .text res.toStr
    | none =>
        if pyStrip s.bufOut ≠ "" then .text s.bufOut
        else .text "Code successfully executed!"

/-- The embedding of run_code (src/analysis.py lines 127-164).
`old_stdout = sys.stdout` is saved, sys.stdout is pointed at a fresh
in-memory buffer (hence execSnippet runs with stream .memBuffer), the
snippet is executed and the outcome dispatched by `dispatchOk`; a raised
fault is caught and rendered as a text result with the error marker.
plt.close("all") empties the figure registry only on the image branch, and
only there is a temporary file name consumed; the finally block restores
sys.stdout on every path. -/
def run_code (df : Table) (code : List Stmt) (w : World) : RunOutput :=
  let old_stdout := w.stdout
  match execSnippet .memBuffer code (initExecSt df w) with
  | .ok s =>
      { result := dispatchOk s w
        table := s.df
        world := { stdout := old_stdout
                   hostOut := s.hostOut
                   figures := if s.figures ≠ [] then [] else s.figures
                   nextTemp := if s.figures ≠ [] then w.nextTemp + 1
                               else w.nextTemp } }
  | .error (msg, s) =>
      { result := .text ("❌ Error: " ++ msg)
        table := s.df
        world := { stdout := old_stdout, hostOut := s.hostOut,
                   figures := s.figures, nextTemp := w.nextTemp } }

/-- Outcome of the HTTPS POST to the model provider, as seen by ask_llm:
either a 2xx response with a well-formed body whose extracted message
content is `content`, or a fault (timeout, raise_for_status on a non-2xx
status, malformed body) whose description is `msg`. -/
inductive ApiResponse where
  | success (content : String)
  | failure (msg : String)
deriving DecidableEq, Repr

/-- What one ask_llm invocation yields: the returned string and whether a
network call was made. -/
structure AskOutcome where
  response : String
  networkCalled : Bool
deriving DecidableEq, Repr

/-- The fixed stand-in snippet returned when the API key is missing
(src/analysis.py line 175). -/
def missingKeyMsg : String :=
  "```python\n# Error: OPENROUTER_API_KEY missing in .env file\nprint('Please add OPENROUTER_API_KEY to .env file')\n```"

/-- The stand-in snippet embedding a fault's text, returned when the HTTPS
call fails (src/analysis.py line 208). -/
def llmFaultMsg (msg : String) : String :=
  "```python\n# Error calling LLM: " ++ msg ++ "\nprint('LLM API Error')\n```"

/-- Python's truthiness test `if not api_key:` on the os.getenv result:
None and the empty string are both falsy. -/
def apiKeyTruthy : Option String → Bool
  | none => false
  | some s => !s.isEmpty

/-- The embedding of ask_llm (src/analysis.py lines 168-208). `apiKey` is
os.getenv("OPENROUTER_API_KEY"); `net` is the oracle for the HTTPS POST,
keyed by the prompt. When the key is falsy, the fixed stand-in snippet is
returned without touching the network; otherwise the call's fault, if any,
is caught and converted to a stand-in snippet embedding the fault text. -/
def ask_llm (apiKey : Option String) (net : String → ApiResponse)
    (prompt : String) : AskOutcome :=
  if !apiKeyTruthy apiKey then
    { response := missingKeyMsg, networkCalled := false }
  else
    match net prompt with
    | .success content => { response := content, networkCalled := true }
    | .failure msg => { response := llmFaultMsg msg, networkCalled := true }

/-- The 3-row sample table of the spec's end-to-end scenario. -/
def sampleTable : Table :=
  { columns := ["product", "revenue"]
    rows := [[.str "A", .num 10], [.str "B", .num 30], [.str "C", .num 20]] }

/-- A quiescent process state: stdout at the host stream, nothing printed,
no open figures. -/
def sampleWorld : World :=
  { stdout := .host, hostOut := "", figures := [], nextTemp := 0 }

/-- The sample table sorted by revenue descending, the tabular value of the
spec's end-to-end scenario. -/
def sortedSample : Table :=
  { columns := ["product", "revenue"]
    rows := [[.str "B", .num 30], [.str "C", .num 20], [.str "A", .num 10]] }

/-- Whether a snippet statement mutates the shared table in place. -/
def Stmt.mutatesTable : Stmt → Bool
  | .mutateCell _ _ _ => true
  | _ => false

/-! ## Supporting lemmas -/

/-- Stripping the empty captured output yields the empty string. -/
theorem pyStrip_empty : pyStrip "" = "" := rfl

/-- One statement executed with sys.stdout at the in-memory buffer leaves
the host stream untouched (normal completion). -/
theorem runStmt_memBuffer_hostOut_ok (s : ExecSt) (stmt : Stmt) (s2 : ExecSt)
    (h : runStmt .memBuffer s stmt = .ok s2) : s2.hostOut = s.hostOut := by
  cases stmt <;> simp [runStmt, writeOut] at h <;> simp [← h]

/-- One statement executed with sys.stdout at the in-memory buffer leaves
the host stream untouched (faulting completion). -/
theorem runStmt_memBuffer_hostOut_error (s : ExecSt) (stmt : Stmt)
    (msg : String) (s2 : ExecSt)
    (h : runStmt .memBuffer s stmt = .error (msg, s2)) :
    s2.hostOut = s.hostOut := by
  cases stmt <;> simp [runStmt, writeOut] at h
  rw [← h.2]

/-- Executing a snippet with sys.stdout pointed at the in-memory buffer
never writes to the host stream, on the normal and the faulting outcome
alike. -/
theorem execSnippet_memBuffer_hostOut (code : List Stmt) (s : ExecSt) :
    (∀ s2, execSnippet .memBuffer code s = .ok s2 → s2.hostOut = s.hostOut) ∧
    (∀ msg s2, execSnippet .memBuffer code s = .error (msg, s2) →
      s2.hostOut = s.hostOut) := by
  induction code generalizing s with
  | nil =>
      refine ⟨fun s2 h => ?_, fun msg s2 h => ?_⟩
      · simp [execSnippet] at h
        rw [← h]
      · simp [execSnippet] at h
  | cons stmt rest ih =>
      refine ⟨fun s2 h => ?_, fun msg s2 h => ?_⟩
      · cases hstep : runStmt .memBuffer s stmt with
        | ok s1 =>
            simp only [execSnippet, hstep] at h
            exact ((ih s1).1 s2 h).trans
              (runStmt_memBuffer_hostOut_ok s stmt s1 hstep)
        | error e =>
            simp only [execSnippet, hstep] at h
            exact absurd h (by simp)
      · cases hstep : runStmt .memBuffer s stmt with
        | ok s1 =>
            simp only [execSnippet, hstep] at h
            exact ((ih s1).2 msg s2 h).trans
              (runStmt_memBuffer_hostOut_ok s stmt s1 hstep)
        | error e =>
            obtain ⟨m, st⟩ := e
            simp only [execSnippet, hstep] at h
            simp at h
            rw [← h.2]
            exact runStmt_memBuffer_hostOut_error s stmt m st hstep

/-- One non-mutating statement leaves the shared table untouched (normal
completion). -/
theorem runStmt_preserves_df (stdout : StdStream) (s : ExecSt) (stmt : Stmt)
    (s2 : ExecSt) (hm : stmt.mutatesTable = false)
    (h : runStmt stdout s stmt = .ok s2) : s2.df = s.df := by
  cases stdout <;> cases stmt <;>
    simp [runStmt, writeOut, Stmt.mutatesTable] at h hm ⊢ <;> simp [← h]

/-- A faulting statement leaves the shared table untouched (only the raise
itself faults, and it performs no mutation). -/
theorem runStmt_preserves_df_error (stdout : StdStream) (s : ExecSt)
    (stmt : Stmt) (msg : String) (s2 : ExecSt)
    (h : runStmt stdout s stmt = .error (msg, s2)) : s2.df = s.df := by
  cases stdout <;> cases stmt <;> simp [runStmt, writeOut] at h <;> rw [← h.2]

/-- A snippet containing no in-place mutating statement leaves the shared
table untouched, on the normal and the faulting outcome alike. -/
theorem execSnippet_preserves_df (stdout : StdStream) (code : List Stmt) :
    ∀ s : ExecSt, (∀ stmt ∈ code, stmt.mutatesTable = false) →
    (∀ s2, execSnippet stdout code s = .ok s2 → s2.df = s.df) ∧
    (∀ msg s2, execSnippet stdout code s = .error (msg, s2) → s2.df = s.df) := by
  induction code with
  | nil =>
      intro s hm
      refine ⟨fun s2 h => ?_, fun msg s2 h => ?_⟩
      · simp [execSnippet] at h
        rw [← h]
      · simp [execSnippet] at h
  | cons stmt rest ih =>
      intro s hm
      have hm1 : stmt.mutatesTable = false := hm stmt (by simp)
      have hmr : ∀ st ∈ rest, st.mutatesTable = false :=
        fun st hst => hm st (by simp [hst])
      refine ⟨fun s2 h => ?_, fun msg s2 h => ?_⟩
      · cases hstep : runStmt stdout s stmt with
        | ok s1 =>
            simp only [execSnippet, hstep] at h
            exact ((ih s1 hmr).1 s2 h).trans
              (runStmt_preserves_df stdout s stmt s1 hm1 hstep)
        | error e =>
            simp only [execSnippet, hstep] at h
            exact absurd h (by simp)
      · cases hstep : runStmt stdout s stmt with
        | ok s1 =>
            simp only [execSnippet, hstep] at h
            exact ((ih s1 hmr).2 msg s2 h).trans
              (runStmt_preserves_df stdout s stmt s1 hm1 hstep)
        | error e =>
            obtain ⟨m, st⟩ := e
            simp only [execSnippet, hstep] at h
            simp at h
            rw [← h.2]
            exact runStmt_preserves_df_error stdout s stmt m st hstep

/-! ## Claim theorems -/

/-- Claim C1: when execution of the snippet raises a fault, run_code catches
it and returns a text ExecutionResult embedding the fault's description
prefixed with the visible error marker; run_code is a total function into
RunOutput, so every input yields exactly one ExecutionResult and no fault
escapes to the caller. -/
theorem run_code_catches_fault (df : Table) (code : List Stmt) (w : World)
    (msg : String) (s : ExecSt)
    (h : execSnippet .memBuffer code (initExecSt df w) = .error (msg, s)) :
    (run_code df code w).result = .text ("❌ Error: " ++ msg) := by
  unfold run_code
  rw [h]

/-- Witness for C1 at a concrete faulting snippet. -/
theorem run_code_catches_fault_witness :
    (run_code sampleTable [Stmt.raiseExc "division by zero"] sampleWorld).result
      = .text ("❌ Error: " ++ "division by zero") :=
  run_code_catches_fault sampleTable [Stmt.raiseExc "division by zero"]
    sampleWorld "division by zero" (initExecSt sampleTable sampleWorld) rfl

/-- Claim C2: after a non-faulting execution, a non-empty figure registry
makes run_code return an image result carrying a temporary file path,
regardless of printed output or a `result` binding. -/
theorem run_code_figure_precedence (df : Table) (code : List Stmt) (w : World)
    (s : ExecSt)
    (hok : execSnippet .memBuffer code (initExecSt df w) = .ok s)
    (hfig : s.figures ≠ []) :
    (run_code df code w).result = .image (tempPngPath w.nextTemp) := by
  unfold run_code
  rw [hok]
  simp [dispatchOk, hfig]

/-- Witness for C2: a snippet that prints, plots, and binds `result` still
yields an image outcome. -/
theorem run_code_figure_precedence_witness :
    (run_code sampleTable
        [Stmt.printLn "hello", Stmt.makeFigure,
         Stmt.assign "result" (PyVal.pyInt 5)] sampleWorld).result
      = .image (tempPngPath sampleWorld.nextTemp) :=
  run_code_figure_precedence sampleTable
    [Stmt.printLn "hello", Stmt.makeFigure, Stmt.assign "result" (PyVal.pyInt 5)]
    sampleWorld
    { df := sampleTable
      locals := [("df", PyVal.dataframe sampleTable), ("result", PyVal.pyInt 5)]
      figures := [1], hostOut := "", bufOut := "hello\n" }
    rfl (by decide)

/-- Claim C3: on every exit path of run_code, sys.stdout is restored to its
pre-execution stream before returning, and the host stream receives nothing
during execution — all printing went to the in-memory buffer. -/
theorem run_code_restores_stdout (df : Table) (code : List Stmt) (w : World) :
    (run_code df code w).world.stdout = w.stdout ∧
    (run_code df code w).world.hostOut = w.hostOut := by
  have key := execSnippet_memBuffer_hostOut code (initExecSt df w)
  unfold run_code
  cases hres : execSnippet .memBuffer code (initExecSt df w) with
  | ok s =>
      have hh : s.hostOut = w.hostOut := key.1 s hres
      exact ⟨rfl, hh⟩
  | error e =>
      obtain ⟨msg, s⟩ := e
      have hh : s.hostOut = w.hostOut := key.2 msg s hres
      exact ⟨rfl, hh⟩

/-- Counterexample to C4 as stated: a snippet that opens a figure and then
raises a fault leaves the figure registry non-empty after run_code returns
(plt.close("all") sits only on the image branch, which the caught-fault
path never reaches). -/
theorem run_code_figures_leak_on_fault_cex :
    (run_code sampleTable [Stmt.makeFigure, Stmt.raiseExc "boom"]
        sampleWorld).world.figures ≠ [] := by decide

/-- Claim C4 amended: after every non-faulting invocation of run_code the
figure registry is empty — the image branch closes all figures, and the
remaining branches are taken only when the registry is already empty. On
the caught-fault path, figures opened before the fault remain open. -/
theorem run_code_figures_empty_on_ok (df : Table) (code : List Stmt)
    (w : World) (s : ExecSt)
    (hok : execSnippet .memBuffer code (initExecSt df w) = .ok s) :
    (run_code df code w).world.figures = [] := by
  unfold run_code
  rw [hok]
  by_cases hfig : s.figures = [] <;> simp [hfig]

/-- Witness for the amended C4: a snippet that plots leaves an empty
registry after run_code. -/
theorem run_code_figures_empty_on_ok_witness :
    (run_code sampleTable [Stmt.makeFigure] sampleWorld).world.figures = [] :=
  run_code_figures_empty_on_ok sampleTable [Stmt.makeFigure] sampleWorld
    { df := sampleTable, locals := [("df", PyVal.dataframe sampleTable)]
      figures := [1], hostOut := "", bufOut := "" }
    rfl

/-- Claim C5: after a non-faulting execution with an empty figure registry
and a binding named `result` in the execution context, run_code returns a
tabular result carrying exactly that value when it is a DataFrame, and a
text result carrying its string form otherwise — whatever was printed
beforehand. -/
theorem run_code_result_binding (df : Table) (code : List Stmt) (w : World)
    (s : ExecSt) (v : PyVal)
    (hok : execSnippet .memBuffer code (initExecSt df w) = .ok s)
    (hfig : s.figures = [])
    (hres : lookupLocal s.locals "result" = some v) :
    (run_code df code w).result =
      match v with
      | .dataframe t => ExecutionResult.dataframe t
      | _ => ExecutionResult.text v.toStr := by
  unfold run_code
  rw [hok]
  cases v <;> simp [dispatchOk, hfig, hres]

/-- Witness for C5: a snippet that prints and then binds the sorted sample
table to `result` yields exactly that table as a tabular outcome. -/
theorem run_code_result_binding_witness :
    (run_code sampleTable
        [Stmt.printLn "note", Stmt.assign "result" (PyVal.dataframe sortedSample)]
        sampleWorld).result = .dataframe sortedSample :=
  run_code_result_binding sampleTable
    [Stmt.printLn "note", Stmt.assign "result" (PyVal.dataframe sortedSample)]
    sampleWorld
    { df := sampleTable
      locals := [("df", PyVal.dataframe sampleTable),
                 ("result", PyVal.dataframe sortedSample)]
      figures := [], hostOut := "", bufOut := "note\n" }
    (PyVal.dataframe sortedSample) rfl rfl rfl

/-- Counterexample to C6 as stated: the table is handed to the snippet by
reference, so a snippet that mutates a cell in place changes the table that
run_code's caller holds. -/
theorem run_code_table_mutation_cex :
    (run_code sampleTable [Stmt.mutateCell 0 1 (Cell.num 999)]
        sampleWorld).table ≠ sampleTable := by decide

/-- Claim C6 amended: run_code itself never modifies the table, and for
every snippet containing no in-place mutating statement, the table after
run_code returns equals the table passed in. -/
theorem run_code_preserves_table (df : Table) (code : List Stmt) (w : World)
    (hm : ∀ stmt ∈ code, stmt.mutatesTable = false) :
    (run_code df code w).table = df := by
  have key := execSnippet_preserves_df .memBuffer code (initExecSt df w) hm
  unfold run_code
  cases hres : execSnippet .memBuffer code (initExecSt df w) with
  | ok s => exact key.1 s hres
  | error e =>
      obtain ⟨msg, s⟩ := e
      exact key.2 msg s hres

/-- Witness for the amended C6 at a concrete non-mutating snippet. -/
theorem run_code_preserves_table_witness :
    (run_code sampleTable [Stmt.printLn "ok"] sampleWorld).table = sampleTable :=
  run_code_preserves_table sampleTable [Stmt.printLn "ok"] sampleWorld (by decide)

/-- Claim C7: with the API-key environment variable absent, ask_llm returns
the fixed error-comment snippet (a fenced code block printing a
configuration-error message), makes no network call, and — being a total
function — raises no fault. -/
theorem ask_llm_missing_key (net : String → ApiResponse) (prompt : String) :
    ask_llm none net prompt
      = { response := missingKeyMsg, networkCalled := false } := rfl

/-- Claim C8: any fault from the HTTPS call is caught and converted into a
stand-in code-snippet string embedding the fault's text; ask_llm is a total
function, so it never raises to its caller. -/
theorem ask_llm_network_fault (apiKey : Option String)
    (net : String → ApiResponse) (prompt msg : String)
    (hkey : apiKeyTruthy apiKey = true)
    (hnet : net prompt = .failure msg) :
    (ask_llm apiKey net prompt).response
      = "```python\n# Error calling LLM: " ++ msg
          ++ "\nprint('LLM API Error')\n```" := by
  simp [ask_llm, hkey, hnet, llmFaultMsg]

/-- Witness for C8 at a concrete timed-out call. -/
theorem ask_llm_network_fault_witness :
    (ask_llm (some "sk-key") (fun _ => ApiResponse.failure "timeout")
        "show revenue").response
      = "```python\n# Error calling LLM: " ++ "timeout"
          ++ "\nprint('LLM API Error')\n```" :=
  ask_llm_network_fault (some "sk-key") (fun _ => ApiResponse.failure "timeout")
    "show revenue" "timeout" rfl rfl

/-- Claim C9: a non-faulting execution with no figure, no `result` binding,
and nothing printed yields the fixed literal success message. -/
theorem run_code_fixed_success (df : Table) (code : List Stmt) (w : World)
    (s : ExecSt)
    (hok : execSnippet .memBuffer code (initExecSt df w) = .ok s)
    (hfig : s.figures = [])
    (hres : lookupLocal s.locals "result" = none)
    (hout : s.bufOut = "") :
    (run_code df code w).result = .text "Code successfully executed!" := by
  unfold run_code
  rw [hok]
  simp [dispatchOk, hfig, hres, hout, pyStrip_empty]

/-- Witness for C9: the empty snippet yields the fixed success message. -/
theorem run_code_fixed_success_witness :
    (run_code sampleTable [] sampleWorld).result
      = .text "Code successfully executed!" :=
  run_code_fixed_success sampleTable [] sampleWorld
    (initExecSt sampleTable sampleWorld) rfl rfl rfl rfl

/-- Claim C10: a non-faulting execution with no figure and no `result`
binding whose captured output strips to nothing (only whitespace was
printed) yields the same fixed literal success message as printing nothing
at all — the printed-output branch fires only when the captured output is
non-empty after stripping. -/
theorem run_code_whitespace_discarded (df : Table) (code : List Stmt)
    (w : World) (s : ExecSt)
    (hok : execSnippet .memBuffer code (initExecSt df w) = .ok s)
    (hfig : s.figures = [])
    (hres : lookupLocal s.locals "result" = none)
    (hws : pyStrip s.bufOut = "") :
    (run_code df code w).result = .text "Code successfully executed!" := by
  unfold run_code
  rw [hok]
  simp [dispatchOk, hfig, hres, hws]

/-- Witness for C10: a snippet printing only spaces yields the fixed
success message. -/
theorem run_code_whitespace_discarded_witness :
    (run_code sampleTable [Stmt.printLn "   "] sampleWorld).result
      = .text "Code successfully executed!" :=
  run_code_whitespace_discarded sampleTable [Stmt.printLn "   "] sampleWorld
    { df := sampleTable, locals := [("df", PyVal.dataframe sampleTable)]
      figures := [], hostOut := "", bufOut := "   \n" }
    rfl rfl rfl (by decide)

end AIDataAnalyst
